import Mathlib

/-!
Verification of the QBox / QBoxF rectangle value types from
src/corelib/tools/qbox.h and src/corelib/tools/qbox.cpp.

The integer type `int` is modelled as `Int` (no claim here depends on
32-bit wraparound except serialization, where the casts are modelled
explicitly), and `qreal` (double) is modelled as `Rat`: every operation the
claims exercise maps integers through exact rational arithmetic, where
IEEE double arithmetic is also exact (all intermediate values are integers
or half-integers far below 2^53).
-/

namespace QtBox

/-- Modelled from the spec: QPoint (QtCore/qpoint.h, not included in the
sources) is a plain pair of ints with `x()`/`y()` accessors. -/
structure QPoint where
  xp : Int
  yp : Int
deriving DecidableEq, Repr

def QPoint.x (p : QPoint) : Int := p.xp

def QPoint.y (p : QPoint) : Int := p.yp

/-- Modelled from the spec: QSize (QtCore/qsize.h, not included in the
sources) is a plain pair of ints with `width()`/`height()` accessors. -/
structure QSize where
  wd : Int
  ht : Int
deriving DecidableEq, Repr

def QSize.width (s : QSize) : Int := s.wd

def QSize.height (s : QSize) : Int := s.ht

/-- Modelled from the spec: QMargins (QtCore/qmargins.h, not included in
the sources) is a quadruple of ints with `left()`/`top()`/`right()`/
`bottom()` accessors. -/
structure QMargins where
  ml : Int
  mt : Int
  mr : Int
  mb : Int
deriving DecidableEq, Repr

def QMargins.left (m : QMargins) : Int := m.ml

def QMargins.top (m : QMargins) : Int := m.mt

def QMargins.right (m : QMargins) : Int := m.mr

def QMargins.bottom (m : QMargins) : Int := m.mb

/-- `QBox`: a rectangle stored as top-left corner `(xp, yp)` plus signed
size `(w, h)` (qbox.h lines 130-135). -/
structure QBox where
  xp : Int
  yp : Int
  w : Int
  h : Int
deriving DecidableEq, Repr

/-- The default constructor `QBox()` (qbox.h line 27). -/
def QBox.null : QBox := ⟨0, 0, 0, 0⟩

/-- Constructor `QBox(const QPoint &topleft, const QSize &size)`
(qbox.h lines 163-166). -/
def QBox.ofPointSize (p : QPoint) (s : QSize) : QBox :=
  ⟨p.x, p.y, s.width, s.height⟩

/-- Constructor `QBox(const QPoint &topleft, const QPoint &bottomright)`
(qbox.h lines 155-161). -/
def QBox.ofPoints (tl br : QPoint) : QBox :=
  ⟨tl.x, tl.y, br.x - tl.x, br.y - tl.y⟩

def QBox.isNull (r : QBox) : Bool := r.w == 0 && r.h == 0

def QBox.isEmpty (r : QBox) : Bool := r.w ≤ 0 || r.h ≤ 0

def QBox.isValid (r : QBox) : Bool := r.w > 0 && r.h > 0

def QBox.left (r : QBox) : Int := r.xp

def QBox.top (r : QBox) : Int := r.yp

def QBox.right (r : QBox) : Int := r.xp + r.w

/-- `QBox::bottom()` as written in the source (qbox.h line 200):
`return yp + w;` — note it adds the width `w`, not the height `h`. -/
def QBox.bottom (r : QBox) : Int := r.yp + r.w

def QBox.x (r : QBox) : Int := r.xp

def QBox.y (r : QBox) : Int := r.yp

def QBox.width (r : QBox) : Int := r.w

def QBox.height (r : QBox) : Int := r.h

def QBox.topLeft (r : QBox) : QPoint := ⟨r.xp, r.yp⟩

def QBox.bottomRight (r : QBox) : QPoint := ⟨r.xp + r.w, r.yp + r.h⟩

/-- `QBox::setLeft` (qbox.h lines 213-218). -/
def QBox.setLeft (r : QBox) (pos : Int) : QBox :=
  let diff := pos - r.xp
  { r with xp := r.xp + diff, w := r.w - diff }

/-- `QBox::setRight` (qbox.h lines 220-223). -/
def QBox.setRight (r : QBox) (pos : Int) : QBox :=
  { r with w := pos - r.xp }

/-- `QBox::setTop` (qbox.h lines 225-230). -/
def QBox.setTop (r : QBox) (pos : Int) : QBox :=
  let diff := pos - r.yp
  { r with yp := r.yp + diff, h := r.h - diff }

/-- `QBox::setBottom` (qbox.h lines 232-235). -/
def QBox.setBottom (r : QBox) (pos : Int) : QBox :=
  { r with h := pos - r.yp }

/-- `QBox::moveLeft` (qbox.h lines 350-353). -/
def QBox.moveLeft (r : QBox) (pos : Int) : QBox := { r with xp := pos }

/-- `QBox::moveTop` (qbox.h lines 355-358). -/
def QBox.moveTop (r : QBox) (pos : Int) : QBox := { r with yp := pos }

/-- `QBox::setCoords` (qbox.h lines 424-430). -/
def QBox.setCoords (_r : QBox) (x1 y1 x2 y2 : Int) : QBox :=
  ⟨x1, y1, x2 - x1, y2 - y1⟩

/-- `QBox::normalized` (qbox.cpp lines 245-257). -/
def QBox.normalized (r : QBox) : QBox :=
  let r1 := if r.w < 0 then { r with xp := r.xp + r.w, w := -r.w } else r
  if r1.h < 0 then { r1 with yp := r1.yp + r1.h, h := -r1.h } else r1

/-- `QBox::contains(const QPoint &)` (qbox.cpp lines 728-754). -/
def QBox.contains (r : QBox) (p : QPoint) : Bool :=
  if r.isNull then false
  else
    let l : Int := if r.w < 0 then r.xp + r.w else r.xp
    let rr : Int := if r.w < 0 then r.xp else r.xp + r.w
    if p.x < l ∨ p.x ≥ rr then false
    else
      let t : Int := if r.h < 0 then r.yp + r.h else r.yp
      let b : Int := if r.h < 0 then r.yp else r.yp + r.h
      if p.y < t ∨ p.y ≥ b then false
      else true

/-- `QBox::operator|` (qbox.cpp lines 839-877). -/
def QBox.opOr (s r : QBox) : QBox :=
  if s.isNull then r
  else if r.isNull then s
  else
    let left0 : Int := if s.w < 0 then s.xp + s.w else s.xp
    let right0 : Int := if s.w < 0 then s.xp else s.xp + s.w
    let left1 : Int :=
      if r.w < 0 then min left0 (r.xp + r.w) else min left0 r.xp
    let right1 : Int :=
      if r.w < 0 then max right0 r.xp else max right0 (r.xp + r.w)
    let top0 : Int := if s.h < 0 then s.yp + s.h else s.yp
    let bottom0 : Int := if s.h < 0 then s.yp else s.yp + s.h
    let top1 : Int :=
      if r.h < 0 then min top0 (r.yp + r.h) else min top0 r.yp
    let bottom1 : Int :=
      if r.h < 0 then max bottom0 r.yp else max bottom0 (r.yp + r.h)
    ⟨left1, top1, right1 - left1, bottom1 - top1⟩

/-- `QBox::operator&` (qbox.cpp lines 898-943). -/
def QBox.opAnd (s r : QBox) : QBox :=
  if s.isNull ∨ r.isNull then QBox.null
  else
    let l1 : Int := if s.w < 0 then s.xp + s.w else s.xp
    let r1 : Int := if s.w < 0 then s.xp else s.xp + s.w
    let l2 : Int := if r.w < 0 then r.xp + r.w else r.xp
    let r2 : Int := if r.w < 0 then r.xp else r.xp + r.w
    if l1 ≥ r2 ∨ l2 ≥ r1 then QBox.null
    else
      let t1 : Int := if s.h < 0 then s.yp + s.h else s.yp
      let b1 : Int := if s.h < 0 then s.yp else s.yp + s.h
      let t2 : Int := if r.h < 0 then r.yp + r.h else r.yp
      let b2 : Int := if r.h < 0 then r.yp else r.yp + r.h
      if t1 ≥ b2 ∨ t2 ≥ b1 then QBox.null
      else
        ⟨max l1 l2, max t1 t2, min r1 r2 - max l1 l2, min b1 b2 - max t1 t2⟩

/-- `QBox::intersected` (qbox.h lines 478-481). -/
def QBox.intersected (s r : QBox) : QBox := s.opAnd r

/-- `QBox::united` (qbox.h lines 483-486). -/
def QBox.united (s r : QBox) : QBox := s.opOr r

/-- `QBox::intersects` (qbox.cpp lines 969-1009). -/
def QBox.intersects (s r : QBox) : Bool :=
  if s.isNull ∨ r.isNull then false
  else
    let l1 : Int := if s.w < 0 then s.xp + s.w else s.xp
    let r1 : Int := if s.w < 0 then s.xp else s.xp + s.w
    let l2 : Int := if r.w < 0 then r.xp + r.w else r.xp
    let r2 : Int := if r.w < 0 then r.xp else r.xp + r.w
    if l1 ≥ r2 ∨ l2 ≥ r1 then false
    else
      let t1 : Int := if s.h < 0 then s.yp + s.h else s.yp
      let b1 : Int := if s.h < 0 then s.yp else s.yp + s.h
      let t2 : Int := if r.h < 0 then r.yp + r.h else r.yp
      let b2 : Int := if r.h < 0 then r.yp else r.yp + r.h
      if t1 ≥ b2 ∨ t2 ≥ b1 then false
      else true

/-- `QBox::marginsAdded` (qbox.h lines 506-510). -/
def QBox.marginsAdded (r : QBox) (m : QMargins) : QBox :=
  QBox.ofPointSize ⟨r.xp - m.left, r.yp - m.top⟩
    ⟨r.w + m.left + m.right, r.h + m.top + m.bottom⟩

/-- `QBox::marginsRemoved` (qbox.h lines 512-516). -/
def QBox.marginsRemoved (r : QBox) (m : QMargins) : QBox :=
  QBox.ofPointSize ⟨r.xp + m.left, r.yp + m.top⟩
    ⟨r.w - m.left - m.right, r.h - m.top - m.bottom⟩

/-- `QBoxF`: the floating-point rectangle (qbox.h lines 656-661); `qreal`
is modelled as `Rat` (see the header comment). -/
structure QBoxF where
  xp : Rat
  yp : Rat
  w : Rat
  h : Rat
deriving DecidableEq, Repr

def QBoxF.x (r : QBoxF) : Rat := r.xp

def QBoxF.y (r : QBoxF) : Rat := r.yp

def QBoxF.width (r : QBoxF) : Rat := r.w

def QBoxF.height (r : QBoxF) : Rat := r.h

/-- `qRound(double d)` from qglobal: `d >= 0.0 ? int(d + 0.5) : int(d - 0.5)`,
where `int(...)` truncates toward zero; for `d ≥ 0` that is the floor of
`d + 1/2`, and for `d < 0` (so `d - 1/2 < 0`) the ceiling of `d - 1/2`. -/
def qRound (x : Rat) : Int :=
  if 0 ≤ x then ⌊x + (1 : Rat) / 2⌋ else ⌈x - (1 : Rat) / 2⌉

/-- `QBox::toBoxF` (qbox.h lines 974-977) via the converting constructor
`QBoxF(const QBox &)` (qbox.h lines 694-697). -/
def QBox.toBoxF (r : QBox) : QBoxF := ⟨(r.x : Rat), (r.y : Rat), (r.width : Rat), (r.height : Rat)⟩

/-- `QBoxF::toBox` (qbox.h lines 979-989). -/
def QBoxF.toBox (r : QBoxF) : QBox :=
  let nxp := qRound r.xp
  let nyp := qRound r.yp
  let nw := qRound (r.w + (r.xp - nxp) / 2)
  let nh := qRound (r.h + (r.yp - nyp) / 2)
  ⟨nxp, nyp, nw, nh⟩

/-- Reduction of a value to the range of `qint16`, as the cast in
`operator<<` does for streams of version 1. -/
def wrap16 (x : Int) : Int := (x + 2 ^ 15) % 2 ^ 16 - 2 ^ 15

/-- Reduction of a value to the range of `qint32`, as the cast in
`operator<<` does for streams of version > 1 (`int` is 32 bits wide). -/
def wrap32 (x : Int) : Int := (x + 2 ^ 31) % 2 ^ 32 - 2 ^ 31

/-- Modelled from the spec: a QDataStream carries a version number and a
sequence of serialized integer values; `<<` appends, `>>` consumes from
the front. -/
structure QDataStream where
  version : Int
  data : List Int
deriving DecidableEq, Repr

/-- `operator<<(QDataStream &, const QBox &)` (qbox.cpp lines 1111-1118):
writes `left()`, `top()`, `right()`, `bottom()` as `qint16` when the
stream version is 1 and as `qint32` otherwise. -/
def writeQBox (s : QDataStream) (r : QBox) : QDataStream :=
  if s.version == 1 then
    { s with data := s.data ++ [wrap16 r.left, wrap16 r.top, wrap16 r.right, wrap16 r.bottom] }
  else
    { s with data := s.data ++ [wrap32 r.left, wrap32 r.top, wrap32 r.right, wrap32 r.bottom] }

/-- `operator>>(QDataStream &, QBox &)` (qbox.cpp lines 1130-1148): reads
four coordinates and rebuilds the rectangle with `setCoords`. -/
def readQBox (s : QDataStream) (r : QBox) : QDataStream × QBox :=
  match s.data with
  | x1 :: y1 :: x2 :: y2 :: rest =>
      ({ s with data := rest }, r.setCoords x1 y1 x2 y2)
  | _ => (s, r)

/-! ### Helper lemmas -/

theorem ite_low (x w : Int) : (if w < 0 then x + w else x) = x + min w 0 := by
  split <;> omega

theorem ite_high (x w : Int) : (if w < 0 then x else x + w) = x + max w 0 := by
  split <;> omega

theorem ite_min_low (L x w : Int) :
    (if w < 0 then min L (x + w) else min L x) = min L (x + min w 0) := by
  split <;> omega

theorem ite_max_high (L x w : Int) :
    (if w < 0 then max L x else max L (x + w)) = max L (x + max w 0) := by
  split <;> omega

/-- `contains` holds exactly when the point lies in the half-open span of
the rectangle in each dimension (the `isNull` guard is subsumed: a null
rectangle has empty spans). -/
theorem QBox.contains_iff (r : QBox) (p : QPoint) :
    r.contains p = true ↔
      r.xp + min r.w 0 ≤ p.x ∧ p.x < r.xp + max r.w 0 ∧
      r.yp + min r.h 0 ≤ p.y ∧ p.y < r.yp + max r.h 0 := by
  simp only [QBox.contains, QBox.isNull, QPoint.x, QPoint.y, Bool.and_eq_true, beq_iff_eq]
  split_ifs <;> simp_all <;> omega

/-! ### Claims C1 - C4 -/

/-- C1: the claim states that `r.bottom()` equals `r.y() + r.height()` and
`r.bottomRight()` equals `(r.right(), r.bottom())`. The code of
`QBox::bottom()` (qbox.h line 200) returns `yp + w` — y plus the *width* —
contradicting its own documentation (qbox.cpp lines 289-290, "Equivalent
to y() + height()") and the `h`-based `setBottom`/`bottomRight`. At
`QBox(10, 20, 3, 4)`: `right()` is 13 as claimed, but `bottom()` is 23
while `y() + height()` is 24, and `bottomRight()` is `(13, 24)` which is
not `(right(), bottom()) = (13, 23)`. -/
theorem C1_bottom_contradicts_docs :
    (QBox.mk 10 20 3 4).right = 13 ∧
    (QBox.mk 10 20 3 4).x + (QBox.mk 10 20 3 4).width = 13 ∧
    (QBox.mk 10 20 3 4).bottom = 23 ∧
    (QBox.mk 10 20 3 4).y + (QBox.mk 10 20 3 4).height = 24 ∧
    (QBox.mk 10 20 3 4).bottomRight = QPoint.mk 13 24 ∧
    QPoint.mk (QBox.mk 10 20 3 4).right (QBox.mk 10 20 3 4).bottom = QPoint.mk 13 23 := by
  decide

/-- C2: the claim states that writing a QBox with `operator<<` and reading
it back with `operator>>` restores it (stream version ≠ 1, coordinates in
range). Because `operator<<` writes `bottom()`, which returns
`y() + width()` (qbox.h line 200), the reader's `setCoords` reconstructs
the height as `bottom - top = width`: at version 2 and `QBox(0, 0, 2, 5)`
the round-trip yields `QBox(0, 0, 2, 2)`. -/
theorem C2_stream_roundtrip_breaks :
    (readQBox (writeQBox ⟨2, []⟩ (QBox.mk 0 0 2 5)) QBox.null).2 = QBox.mk 0 0 2 2 ∧
    (readQBox (writeQBox ⟨2, []⟩ (QBox.mk 0 0 2 5)) QBox.null).2 ≠ QBox.mk 0 0 2 5 := by
  decide

/-- C3: the claim states that `setLeft` keeps `right()` fixed, `setTop`
keeps `bottom()` fixed, and `moveLeft`/`moveTop` keep the size. The
`setLeft`, `moveLeft` and `moveTop` parts hold, but because `bottom()`
returns `y() + width()` (qbox.h line 200), `setTop` shifts the reported
bottom edge: on `QBox(0, 0, 2, 5)`, `bottom()` is 2 before and 3 after
`setTop(1)`, although the stored extent `y() + height()` is unchanged. -/
theorem C3_setTop_moves_reported_bottom :
    ((QBox.mk 0 0 2 5).setLeft 1).left = 1 ∧
    ((QBox.mk 0 0 2 5).setLeft 1).right = (QBox.mk 0 0 2 5).right ∧
    ((QBox.mk 0 0 2 5).setTop 1).top = 1 ∧
    (QBox.mk 0 0 2 5).bottom = 2 ∧
    ((QBox.mk 0 0 2 5).setTop 1).bottom = 3 ∧
    ((QBox.mk 0 0 2 5).moveLeft 7).width = (QBox.mk 0 0 2 5).width ∧
    ((QBox.mk 0 0 2 5).moveTop 7).height = (QBox.mk 0 0 2 5).height := by
  decide

/-- C4: `operator&` computes the set intersection of the contained points:
`(a & b).contains p` holds exactly when both `a.contains p` and
`b.contains p` hold. -/
theorem C4_opAnd_contains (a b : QBox) (p : QPoint) :
    ((a.opAnd b).contains p = true) ↔ (a.contains p = true ∧ b.contains p = true) := by
  obtain ⟨ax, ay, aw, ah⟩ := a
  obtain ⟨bx, bz, bw, bh⟩ := b
  obtain ⟨px, py⟩ := p
  simp only [QBox.opAnd, QBox.isNull, QBox.null, Bool.and_eq_true, beq_iff_eq,
    Bool.or_eq_true, decide_eq_true_eq, ite_low, ite_high]
  split_ifs with h1 h2 h3
  all_goals rw [QBox.contains_iff, QBox.contains_iff, QBox.contains_iff]
  all_goals simp only [QPoint.x, QPoint.y]
  all_goals omega

/-! ### Claim C5 -/

/-- `intersects` holds exactly when neither box is null and the half-open
spans strictly interleave in both dimensions. -/
theorem QBox.intersects_iff (a b : QBox) :
    a.intersects b = true ↔
      ¬(a.w = 0 ∧ a.h = 0) ∧ ¬(b.w = 0 ∧ b.h = 0) ∧
      a.xp + min a.w 0 < b.xp + max b.w 0 ∧ b.xp + min b.w 0 < a.xp + max a.w 0 ∧
      a.yp + min a.h 0 < b.yp + max b.h 0 ∧ b.yp + min b.h 0 < a.yp + max a.h 0 := by
  obtain ⟨ax, ay, aw, ah⟩ := a
  obtain ⟨bx, bz, bw, bh⟩ := b
  simp only [QBox.intersects, QBox.isNull, Bool.and_eq_true, beq_iff_eq, ite_low, ite_high]
  split_ifs <;> simp_all <;> omega

/-- The result of `operator&` is valid exactly when the spans strictly
interleave and in addition both boxes are nondegenerate in both
dimensions. -/
theorem QBox.opAnd_isValid_iff (a b : QBox) :
    (a.opAnd b).isValid = true ↔
      a.w ≠ 0 ∧ a.h ≠ 0 ∧ b.w ≠ 0 ∧ b.h ≠ 0 ∧
      a.xp + min a.w 0 < b.xp + max b.w 0 ∧ b.xp + min b.w 0 < a.xp + max a.w 0 ∧
      a.yp + min a.h 0 < b.yp + max b.h 0 ∧ b.yp + min b.h 0 < a.yp + max a.h 0 := by
  obtain ⟨ax, ay, aw, ah⟩ := a
  obtain ⟨bx, bz, bw, bh⟩ := b
  simp only [QBox.opAnd, QBox.isNull, QBox.null, QBox.isValid, Bool.and_eq_true,
    beq_iff_eq, ite_low, ite_high]
  split_ifs <;> simp_all [decide_eq_true_eq] <;> omega

/-- C5 counterexample: the claim "intersects(b) holds iff `a & b` is
valid" fails for a degenerate rectangle: `QBox(0, 0, 0, 5)` (zero width,
nonzero height) against `QBox(-1, 0, 3, 5)` — `intersects` returns true
but the intersection has zero width, hence is invalid. -/
theorem C5_counterexample :
    (QBox.mk 0 0 0 5).intersects (QBox.mk (-1) 0 3 5) = true ∧
    ((QBox.mk 0 0 0 5).opAnd (QBox.mk (-1) 0 3 5)).isValid = false := by
  decide

/-- C5 amended: a valid intersection always implies `intersects`, and for
rectangles with nonzero width and height on both sides (the
counterexample's degenerate zero-extent case excluded) `intersects`
agrees exactly with the validity of `a & b`. -/
theorem C5_intersects_amended (a b : QBox) :
    ((a.opAnd b).isValid = true → a.intersects b = true) ∧
    (a.w ≠ 0 → a.h ≠ 0 → b.w ≠ 0 → b.h ≠ 0 →
      (a.intersects b = true ↔ (a.opAnd b).isValid = true)) := by
  rw [QBox.intersects_iff, QBox.opAnd_isValid_iff]
  constructor
  · intro h
    exact ⟨by omega, by omega, h.2.2.2.2.1, h.2.2.2.2.2.1, h.2.2.2.2.2.2.1, h.2.2.2.2.2.2.2⟩
  · intro hw hh hw2 hh2
    constructor
    · intro h
      exact ⟨hw, hh, hw2, hh2, h.2.2.1, h.2.2.2.1, h.2.2.2.2.1, h.2.2.2.2.2⟩
    · intro h
      exact ⟨by omega, by omega, h.2.2.2.2.1, h.2.2.2.2.2.1, h.2.2.2.2.2.2.1, h.2.2.2.2.2.2.2⟩

/-- C5 witness: the amended equivalence evaluated on the concrete
nondegenerate pair `QBox(0, 0, 2, 2)`, `QBox(1, 1, 3, 3)`. -/
theorem C5_intersects_amended_witness :
    (QBox.mk 0 0 2 2).intersects (QBox.mk 1 1 3 3) = true ∧
    ((QBox.mk 0 0 2 2).opAnd (QBox.mk 1 1 3 3)).isValid = true := by
  have h := C5_intersects_amended (QBox.mk 0 0 2 2) (QBox.mk 1 1 3 3)
  have h2 := (h.2 (by decide) (by decide) (by decide) (by decide)).mpr (by decide)
  exact ⟨h2, h.1 (by decide)⟩

/-! ### Claim C6 -/

/-- C6 counterexample: `a | QBox()` does not always return `a`: a null
rectangle at a nonzero position, such as `QBox(3, 4, 0, 0)`, is mapped by
`operator|` with `QBox()` to `QBox()` itself (`operator|` returns its
second operand whenever the first is null, qbox.cpp lines 841-842), which
differs from `a`. -/
theorem C6_counterexample :
    (QBox.mk 3 4 0 0).opOr QBox.null ≠ QBox.mk 3 4 0 0 ∧
    (QBox.mk 3 4 0 0).opOr (QBox.mk 7 8 0 0) ≠ (QBox.mk 7 8 0 0).opOr (QBox.mk 3 4 0 0) := by
  decide

/-- C6 amended: `operator|` is commutative whenever the two rectangles
are not both null; `a | QBox()` equals `a` for non-null `a` (a null `a`
is collapsed to `QBox()`); `QBox() | a` equals `a` unconditionally; and
the union contains every point contained in either argument. -/
theorem C6_opOr_amended (a b : QBox) (p : QPoint) :
    (¬(a.isNull = true ∧ b.isNull = true) → a.opOr b = b.opOr a) ∧
    (a.isNull = false → a.opOr QBox.null = a) ∧
    (QBox.null.opOr a = a) ∧
    ((a.contains p = true ∨ b.contains p = true) → (a.opOr b).contains p = true) := by
  obtain ⟨ax, ay, aw, ah⟩ := a
  obtain ⟨bx, bz, bw, bh⟩ := b
  obtain ⟨px, py⟩ := p
  refine ⟨?_, ?_, ?_, ?_⟩
  · intro hnn
    simp only [QBox.isNull, Bool.and_eq_true, beq_iff_eq] at hnn
    simp only [QBox.opOr, QBox.isNull, Bool.and_eq_true, beq_iff_eq,
      ite_low, ite_high, ite_min_low, ite_max_high]
    split_ifs <;> first
      | rfl
      | (simp_all only [QBox.mk.injEq]; constructor <;> omega)
      | simp_all
  · intro hn
    simp only [QBox.isNull, Bool.and_eq_true, beq_iff_eq, eq_iff_iff, iff_false,
      not_and, Bool.and_eq_false_iff, beq_eq_false_iff_ne, ne_eq] at hn
    simp only [QBox.opOr, QBox.null, QBox.isNull, Bool.and_eq_true, beq_iff_eq]
    split_ifs <;> simp_all
  · simp only [QBox.opOr, QBox.null, QBox.isNull, Bool.and_eq_true, beq_iff_eq]
    split_ifs <;> simp_all
  · intro hc
    simp only [QBox.contains_iff, QPoint.x, QPoint.y] at hc
    simp only [QBox.opOr, QBox.isNull, Bool.and_eq_true, beq_iff_eq,
      ite_low, ite_high, ite_min_low, ite_max_high]
    split_ifs
    all_goals rw [QBox.contains_iff]
    all_goals simp only [QPoint.x, QPoint.y]
    all_goals omega

/-- C6 witness: the amended statement evaluated on the concrete pair
`QBox(0, 0, 2, 2)`, `QBox(1, 1, 3, 3)` and the point `(0, 0)`. -/
theorem C6_opOr_amended_witness :
    (QBox.mk 0 0 2 2).opOr (QBox.mk 1 1 3 3) = (QBox.mk 1 1 3 3).opOr (QBox.mk 0 0 2 2) ∧
    (QBox.mk 0 0 2 2).opOr QBox.null = QBox.mk 0 0 2 2 ∧
    QBox.null.opOr (QBox.mk 0 0 2 2) = QBox.mk 0 0 2 2 ∧
    ((QBox.mk 0 0 2 2).opOr (QBox.mk 1 1 3 3)).contains (QPoint.mk 0 0) = true := by
  have h := C6_opOr_amended (QBox.mk 0 0 2 2) (QBox.mk 1 1 3 3) (QPoint.mk 0 0)
  exact ⟨h.1 (by decide), h.2.1 (by decide), h.2.2.1, h.2.2.2 (Or.inl (by decide))⟩

/-! ### Claims C7 - C10 -/

/-- C7: `normalized` returns a rectangle of width `|width()|` and height
`|height()|`; it is the identity on rectangles with non-negative width
and height (hence idempotent); a negative width swaps the horizontal
edges (`normalized().left() = x() + width()`), and a negative height
swaps the vertical ones (`normalized().top() = y() + height()`). -/
theorem C7_normalized (r : QBox) :
    r.normalized.width = |r.width| ∧
    r.normalized.height = |r.height| ∧
    (r.width ≥ 0 → r.height ≥ 0 → r.normalized = r) ∧
    r.normalized.normalized = r.normalized ∧
    (r.width < 0 → r.normalized.left = r.x + r.width) ∧
    (r.height < 0 → r.normalized.top = r.y + r.height) := by
  obtain ⟨x, y, w, h⟩ := r
  refine ⟨?_, ?_, ?_, ?_, ?_, ?_⟩
  all_goals simp only [QBox.normalized, QBox.width, QBox.height, QBox.left, QBox.top,
    QBox.x, QBox.y]
  all_goals split_ifs <;> simp_all [abs_of_neg, abs_of_nonneg, not_lt, le_of_lt] <;> omega

/-- C7 witness: `normalized` evaluated on a rectangle with non-negative
extents and on one with negative extents. -/
theorem C7_normalized_witness :
    (QBox.mk 0 0 2 3).normalized = QBox.mk 0 0 2 3 ∧
    (QBox.mk 1 2 (-3) (-4)).normalized.left = -2 ∧
    (QBox.mk 1 2 (-3) (-4)).normalized.top = -2 := by
  have h1 := (C7_normalized (QBox.mk 0 0 2 3)).2.2.1 (by decide) (by decide)
  have h2 := (C7_normalized (QBox.mk 1 2 (-3) (-4))).2.2.2.2.1 (by decide)
  have h3 := (C7_normalized (QBox.mk 1 2 (-3) (-4))).2.2.2.2.2 (by decide)
  exact ⟨h1, h2.trans (by decide), h3.trans (by decide)⟩

/-- `qRound` is the identity on integer values. -/
theorem qRound_intCast (n : Int) : qRound (n : Rat) = n := by
  unfold qRound
  split_ifs with h
  · rw [Int.floor_int_add]
    norm_num
  · rw [sub_eq_add_neg, add_comm, Int.ceil_add_int]
    norm_num

/-- C8: `toBoxF` preserves x, y, width and height exactly, and converting
back with `QBoxF::toBox` restores the original integer rectangle. -/
theorem C8_toBoxF_roundtrip (r : QBox) :
    r.toBoxF.x = (r.x : Rat) ∧ r.toBoxF.y = (r.y : Rat) ∧
    r.toBoxF.width = (r.width : Rat) ∧ r.toBoxF.height = (r.height : Rat) ∧
    r.toBoxF.toBox = r := by
  obtain ⟨x, y, w, h⟩ := r
  refine ⟨rfl, rfl, rfl, rfl, ?_⟩
  simp only [QBox.toBoxF, QBoxF.toBox, QBox.x, QBox.y, QBox.width, QBox.height,
    qRound_intCast]
  norm_num [qRound_intCast]

/-- C9: point containment is invariant under `normalized`, and a
rectangle with zero width or zero height contains no point. -/
theorem C9_contains_normalized (r : QBox) (p : QPoint) :
    (r.contains p = true ↔ r.normalized.contains p = true) ∧
    (r.width = 0 ∨ r.height = 0 → r.contains p = false) := by
  obtain ⟨x, y, w, h⟩ := r
  obtain ⟨px, py⟩ := p
  constructor
  · rw [QBox.contains_iff, QBox.contains_iff]
    simp only [QBox.normalized]
    split_ifs <;> simp_all [QPoint.x, QPoint.y] <;> omega
  · intro hd
    rw [← Bool.not_eq_true, QBox.contains_iff]
    simp only [QPoint.x, QPoint.y, QBox.width, QBox.height] at *
    omega

/-- C9 witness: a zero-width rectangle contains no point. -/
theorem C9_contains_normalized_witness :
    ((QBox.mk 0 0 0 5).contains (QPoint.mk 0 0) = true ↔
      (QBox.mk 0 0 0 5).normalized.contains (QPoint.mk 0 0) = true) ∧
    (QBox.mk 0 0 0 5).contains (QPoint.mk 0 0) = false := by
  have h := C9_contains_normalized (QBox.mk 0 0 0 5) (QPoint.mk 0 0)
  exact ⟨h.1, h.2 (Or.inl (by decide))⟩

/-- C10: removing the margins just added restores the rectangle exactly:
`r.marginsAdded(m).marginsRemoved(m) = r`. -/
theorem C10_margins_roundtrip (r : QBox) (m : QMargins) :
    (r.marginsAdded m).marginsRemoved m = r := by
  obtain ⟨x, y, w, h⟩ := r
  obtain ⟨l, t, rr, b⟩ := m
  simp only [QBox.marginsAdded, QBox.marginsRemoved, QBox.ofPointSize, QMargins.left,
    QMargins.top, QMargins.right, QMargins.bottom, QPoint.x, QPoint.y, QSize.width,
    QSize.height, QBox.mk.injEq]
  refine ⟨by ring, by ring, by ring, by ring⟩

end QtBox
